import Mathlib

/-!
Verification of the EthModule JSON-RPC compatibility layer
(`src/packages/buidler-core/src/internal/buidler-evm/provider/modules/eth.ts`).

The TypeScript class `EthModule` is shallowly embedded: buffers become
`List Nat` (one entry per byte), `BN` quantities become `Nat`, asynchronous
node reads become fields of an explicit `BuidlerNode` record of pure
functions, and thrown errors become `Except RpcError` results.  Helpers
that live in sibling files of the repository (`../input`, `../output`),
which are not part of the sources, are modelled from the specification and
marked as such in their doc comments.
-/

namespace BuidlerEvm

/-- Byte sequences (TypeScript `Buffer`), one `Nat` per byte. -/
abbrev Bytes := List Nat

/-- The error taxonomy of `../errors`: the distinct wire error kinds thrown
by the module, plus `other` for errors that are rethrown unchanged. -/
inductive RpcError
  | methodNotFound (message : String)
  | methodNotSupported (message : String)
  | invalidInput (message : String)
  | invalidArguments (message : String)
  | other (message : String)
  deriving DecidableEq

/-- `OptionalBlockTag` of `../input`: an absolute block number or one of the
symbolic tags; absence is represented by `Option.none` at use sites. -/
inductive BlockTag
  | number (n : Nat)
  | earliest
  | latest
  | pending
  deriving DecidableEq

abbrev OptionalBlockTag := Option BlockTag

structure BlockHeader where
  number : Nat
  deriving DecidableEq

/-- A block as seen by this layer: only the header number and the
transaction list are consulted. -/
structure Block where
  header : BlockHeader
  transactions : List Bytes := []
  deriving DecidableEq

/-- One slot of the `topics` field of a wire filter request:
a bare hash, a list of alternatives (possibly containing nulls), or null. -/
inductive LogTopic
  | single (h : Bytes)
  | list (hs : List (Option Bytes))
  | null
  deriving DecidableEq

/-- `LogTopics` of `../input`. -/
abbrev LogTopics := Option (List LogTopic)

/-- `LogAddress` of `../input`: a single address or a list of addresses. -/
inductive LogAddress
  | single (a : Bytes)
  | list (as : List Bytes)
  deriving DecidableEq

/-- `RpcFilterRequest` of `../input` (wire shape, pre-normalization). -/
structure RpcFilterRequest where
  fromBlock : OptionalBlockTag := none
  toBlock : OptionalBlockTag := none
  blockHash : Option Bytes := none
  address : Option LogAddress := none
  topics : LogTopics := none
  deriving DecidableEq

/-- `FilterParams` of `../node`: fully-resolved filter criteria.  Block
references are integers because `-1` is the dynamic-head sentinel. -/
structure FilterParams where
  fromBlock : Int
  toBlock : Int
  topics : List (Option (List (Option Bytes)))
  addresses : List Bytes
  deriving DecidableEq

/-- `RpcCallRequest` of `../input`: all fields optional. -/
structure RpcCallRequest where
  from_ : Option Bytes := none
  to_ : Option Bytes := none
  gas : Option Nat := none
  gasPrice : Option Nat := none
  value : Option Nat := none
  data : Option Bytes := none
  deriving DecidableEq

/-- `RpcTransactionRequest` of `../input`: like a call request but `from`
is mandatory and a `nonce` may be given. -/
structure RpcTransactionRequest where
  from_ : Bytes
  to_ : Option Bytes := none
  gas : Option Nat := none
  gasPrice : Option Nat := none
  value : Option Nat := none
  data : Option Bytes := none
  nonce : Option Nat := none
  deriving DecidableEq

/-- `CallParams` of `../node`. -/
structure CallParams where
  to_ : Bytes
  from_ : Bytes
  data : Bytes
  gasLimit : Nat
  gasPrice : Nat
  value : Nat
  deriving DecidableEq

/-- `TransactionParams` of `../node`. -/
structure TransactionParams where
  to_ : Bytes
  from_ : Bytes
  gasLimit : Nat
  gasPrice : Nat
  value : Nat
  data : Bytes
  nonce : Nat
  deriving DecidableEq

/-- A decoded signed transaction (`Transaction` of `ethereumjs-tx`); the
only observation this layer makes of it is `hash(true)`. -/
structure Transaction where
  hashTrue : Bytes
  deriving DecidableEq

/-- The `BuidlerNode` collaborator, restricted to the operations the
verified actions consult, as pure functions of one fixed node state. -/
structure BuidlerNode where
  getLocalAccountAddresses : List Bytes
  getBlockByHash : Bytes → Option Block
  getBlockGasLimit : Nat
  getGasPrice : Nat
  getAccountBalance : Bytes → Nat
  getAccountNonce : Bytes → Nat
  getCode : Bytes → Bytes
  getStorageAt : Bytes → Nat → Bytes
  runCall : CallParams → Bytes
  estimateGas : TransactionParams → Nat
  getLogs : FilterParams → List Bytes
  newFilter : FilterParams → Nat
  newBlockFilter : Nat
  newPendingTransactionFilter : Nat
  uninstallFilter : Nat → Bool → Bool

/-! ## Wire codec (modelled from the spec; `../input` and `../output` are
not under the sources) -/

/-- Modelled from the spec: lowercase hex digit character for a value
below 16. -/
def hexChar (d : Nat) : Char :=
  if d < 10 then Char.ofNat (48 + d) else Char.ofNat (87 + d)

/-- Modelled from the spec: `numberToRpcQuantity` of `../output`.
Canonical encoding of a non-negative integer: `0x`-prefixed hex with no
leading zero digits, zero encoding as `0x0`. -/
def numberToRpcQuantity (n : Nat) : String :=
  if n = 0 then "0x0"
  else ⟨'0' :: 'x' :: ((Nat.digits 16 n).reverse.map hexChar)⟩

/-- Modelled from the spec: value of a hex digit character, both cases
accepted; `none` for a non-hex character. -/
def hexCharToDigit (c : Char) : Option Nat :=
  if 48 ≤ c.toNat ∧ c.toNat ≤ 57 then some (c.toNat - 48)
  else if 97 ≤ c.toNat ∧ c.toNat ≤ 102 then some (c.toNat - 87)
  else if 65 ≤ c.toNat ∧ c.toNat ≤ 70 then some (c.toNat - 55)
  else none

/-- Modelled from the spec: the values of a list of hex digit characters,
or `none` when a non-hex character occurs. -/
def hexCharsToDigits : List Char → Option (List Nat)
  | [] => some []
  | c :: cs =>
    match hexCharToDigit c, hexCharsToDigits cs with
    | some d, some ds => some (d :: ds)
    | _, _ => none

/-- Modelled from the spec: digit part of strict quantity decoding:
rejects emptiness, a leading zero digit (except for the single digit 0),
and non-hex characters. -/
def decodeQuantityDigits (ds : List Char) : Except RpcError Nat :=
  if ds = [] then .error (.invalidInput "empty quantity")
  else if 1 < ds.length ∧ ds.head? = some '0' then
    .error (.invalidInput "leading zero in quantity")
  else
    match hexCharsToDigits ds with
    | some vs => .ok (Nat.ofDigits 16 vs.reverse)
    | none => .error (.invalidInput "non-hex character in quantity")

/-- Modelled from the spec: `decodeQuantity` / the `rpcQuantity` validator
of `../input`: strict decoding of a canonical `0x`-prefixed quantity. -/
def decodeQuantity (s : String) : Except RpcError Nat :=
  if s.data.take 2 = ['0', 'x'] then decodeQuantityDigits (s.data.drop 2)
  else .error (.invalidInput "quantity must start with 0x")

/-- Modelled from the spec: the hex character pair of each byte, in order. -/
def bytesToHexChars : Bytes → List Char
  | [] => []
  | b :: bs => hexChar (b / 16 % 16) :: hexChar (b % 16) :: bytesToHexChars bs

/-- Modelled from the spec: `bufferToRpcData` of `../output`: a byte
sequence as `0x`-prefixed lowercase hex, two digits per byte (hence always
of even hex length). -/
def bufferToRpcData (b : Bytes) : String :=
  ⟨'0' :: 'x' :: bytesToHexChars b⟩

/-! ## Method dispatcher (`EthModule.processRequest`) -/

/-- Classification of what `processRequest` does for a method name:
route to a supported handler, throw `MethodNotSupportedError`, or throw
`MethodNotFoundError` (carrying the thrown message where applicable). -/
inductive DispatchOutcome
  | supported
  | notSupported (message : String)
  | notFound (message : String)
  deriving DecidableEq

/-- The `switch (method)` of `EthModule.processRequest`, branch for branch
in source order.  A supported case routes to its handler (classified
`supported`); an explicitly-unsupported case throws
`MethodNotSupportedError`; falling through the switch throws
`MethodNotFoundError`. -/
def processRequestOutcome (method : String) : DispatchOutcome :=
  if method = "eth_accounts" then .supported
  else if method = "eth_blockNumber" then .supported
  else if method = "eth_call" then .supported
  else if method = "eth_chainId" then .supported
  else if method = "eth_coinbase" then .supported
  else if method = "eth_compileLLL" then
    .notSupported ("Method " ++ method ++ " is not supported")
  else if method = "eth_compileSerpent" then
    .notSupported ("Method " ++ method ++ " is not supported")
  else if method = "eth_compileSolidity" then
    .notSupported ("Method " ++ method ++ " is not supported")
  else if method = "eth_estimateGas" then .supported
  else if method = "eth_gasPrice" then .supported
  else if method = "eth_getBalance" then .supported
  else if method = "eth_getBlockByHash" then .supported
  else if method = "eth_getBlockByNumber" then .supported
  else if method = "eth_getBlockTransactionCountByHash" then .supported
  else if method = "eth_getBlockTransactionCountByNumber" then .supported
  else if method = "eth_getCode" then .supported
  else if method = "eth_getCompilers" then
    .notSupported ("Method " ++ method ++ " is not supported")
  else if method = "eth_getFilterChanges" then .supported
  else if method = "eth_getFilterLogs" then .supported
  else if method = "eth_getLogs" then .supported
  else if method = "eth_getProof" then
    .notSupported ("Method " ++ method ++ " is not supported")
  else if method = "eth_getStorageAt" then .supported
  else if method = "eth_getTransactionByBlockHashAndIndex" then .supported
  else if method = "eth_getTransactionByBlockNumberAndIndex" then .supported
  else if method = "eth_getTransactionByHash" then .supported
  else if method = "eth_getTransactionCount" then .supported
  else if method = "eth_getTransactionReceipt" then .supported
  else if method = "eth_getUncleByBlockHashAndIndex" then
    .notSupported ("Method " ++ method ++ " is not supported")
  else if method = "eth_getUncleByBlockNumberAndIndex" then
    .notSupported ("Method " ++ method ++ " is not supported")
  else if method = "eth_getUncleCountByBlockHash" then
    .notSupported ("Method " ++ method ++ " is not supported")
  else if method = "eth_getUncleCountByBlockNumber" then
    .notSupported ("Method " ++ method ++ " is not supported")
  else if method = "eth_getWork" then
    .notSupported ("Method " ++ method ++ " is not supported")
  else if method = "eth_hashrate" then
    .notSupported ("Method " ++ method ++ " is not supported")
  else if method = "eth_mining" then .supported
  else if method = "eth_newBlockFilter" then .supported
  else if method = "eth_newFilter" then .supported
  else if method = "eth_newPendingTransactionFilter" then .supported
  else if method = "eth_pendingTransactions" then .supported
  else if method = "eth_protocolVersion" then
    .notSupported ("Method " ++ method ++ " is not supported")
  else if method = "eth_sendRawTransaction" then .supported
  else if method = "eth_sendTransaction" then .supported
  else if method = "eth_sign" then .supported
  else if method = "eth_signTransaction" then
    .notSupported ("Method " ++ method ++ " is not supported")
  else if method = "eth_signTypedData" then .supported
  else if method = "eth_submitHashrate" then
    .notSupported ("Method " ++ method ++ " is not supported")
  else if method = "eth_submitWork" then
    .notSupported ("Method " ++ method ++ " is not supported")
  else if method = "eth_subscribe" then .supported
  else if method = "eth_syncing" then .supported
  else if method = "eth_uninstallFilter" then .supported
  else if method = "eth_unsubscribe" then .supported
  else .notFound ("Method " ++ method ++ " not found")

/-- The 35 method names `processRequest` routes to a handler. -/
def supportedMethods : List String :=
  ["eth_accounts", "eth_blockNumber", "eth_call", "eth_chainId",
   "eth_coinbase", "eth_estimateGas", "eth_gasPrice", "eth_getBalance",
   "eth_getBlockByHash", "eth_getBlockByNumber",
   "eth_getBlockTransactionCountByHash",
   "eth_getBlockTransactionCountByNumber", "eth_getCode",
   "eth_getFilterChanges", "eth_getFilterLogs", "eth_getLogs",
   "eth_getStorageAt", "eth_getTransactionByBlockHashAndIndex",
   "eth_getTransactionByBlockNumberAndIndex", "eth_getTransactionByHash",
   "eth_getTransactionCount", "eth_getTransactionReceipt", "eth_mining",
   "eth_newBlockFilter", "eth_newFilter", "eth_newPendingTransactionFilter",
   "eth_pendingTransactions", "eth_sendRawTransaction",
   "eth_sendTransaction", "eth_sign", "eth_signTypedData", "eth_subscribe",
   "eth_syncing", "eth_uninstallFilter", "eth_unsubscribe"]

/-- The 15 method names `processRequest` recognizes but rejects with
`MethodNotSupportedError`. -/
def unsupportedMethods : List String :=
  ["eth_protocolVersion", "eth_hashrate", "eth_getProof",
   "eth_getUncleByBlockHashAndIndex", "eth_getUncleByBlockNumberAndIndex",
   "eth_getUncleCountByBlockHash", "eth_getUncleCountByBlockNumber",
   "eth_signTransaction", "eth_submitWork", "eth_submitHashrate",
   "eth_getWork", "eth_compileLLL", "eth_compileSerpent",
   "eth_compileSolidity", "eth_getCompilers"]

/-! ## Semantic normalizers of `EthModule` -/

/-- `EthModule._validateBlockTag`: only absence, `latest` and `pending`
are accepted; anything else throws `InvalidInputError`. -/
def _validateBlockTag (blockTag : OptionalBlockTag) : Except RpcError Unit :=
  if blockTag ≠ none ∧ blockTag ≠ some .latest ∧ blockTag ≠ some .pending then
    .error (.invalidInput "Only latest and pending block params are supported")
  else .ok ()

/-- `EthModule._extractBlock`: block reference resolution for filter
ranges; `-1` is the dynamic-head sentinel the node understands. -/
def _extractBlock : OptionalBlockTag → Except RpcError Int
  | some .earliest => .ok 0
  | none => .ok (-1)
  | some .latest => .ok (-1)
  | some .pending => .error (.invalidArguments "pending not supported")
  | some (.number n) => .ok (Int.ofNat n)

/-- `EthModule._extractLogTopics`: absent or empty topics give the empty
list; a bare hash slot is wrapped into a one-alternative list; list and
null slots pass through, preserving order. -/
def _extractLogTopics (logTopics : LogTopics) :
    List (Option (List (Option Bytes))) :=
  match logTopics with
  | none => []
  | some ts =>
    if ts.length = 0 then []
    else
      ts.map fun t =>
        match t with
        | .single h => some [some h]
        | .list hs => some hs
        | .null => none

/-- `EthModule._extractLogAddresses`: absent address gives the empty
list; a single address becomes a one-element list; a list passes through. -/
def _extractLogAddresses (address : Option LogAddress) : List Bytes :=
  match address with
  | none => []
  | some (.single a) => [a]
  | some (.list as) => as

/-- `zeroAddress()` of `ethereumjs-util` converted with `toBuffer`:
twenty zero bytes. -/
def zeroAddress : Bytes := List.replicate 20 0

/-- `EthModule._getDefaultCallFrom`: the first locally-controlled account,
or the zero address when there is none. -/
def _getDefaultCallFrom (node : BuidlerNode) : Bytes :=
  match node.getLocalAccountAddresses with
  | [] => zeroAddress
  | a :: _ => a

/-- `EthModule._rpcCallRequestToNodeCallParams`: default-value injection
for `eth_call` requests. -/
def _rpcCallRequestToNodeCallParams (node : BuidlerNode)
    (rpcCall : RpcCallRequest) : CallParams :=
  { to_ := match rpcCall.to_ with | some t => t | none => []
    from_ := match rpcCall.from_ with
      | some f => f
      | none => _getDefaultCallFrom node
    data := match rpcCall.data with | some d => d | none => []
    gasLimit := match rpcCall.gas with
      | some g => g
      | none => node.getBlockGasLimit
    gasPrice := match rpcCall.gasPrice with
      | some g => g
      | none => node.getGasPrice
    value := match rpcCall.value with | some v => v | none => 0 }

/-- `EthModule._rpcTransactionRequestToNodeTransactionParams`:
default-value injection for transaction requests. -/
def _rpcTransactionRequestToNodeTransactionParams (node : BuidlerNode)
    (rpcTx : RpcTransactionRequest) : TransactionParams :=
  { to_ := match rpcTx.to_ with | some t => t | none => []
    from_ := rpcTx.from_
    gasLimit := match rpcTx.gas with
      | some g => g
      | none => node.getBlockGasLimit
    gasPrice := match rpcTx.gasPrice with
      | some g => g
      | none => node.getGasPrice
    value := match rpcTx.value with | some v => v | none => 0
    data := match rpcTx.data with | some d => d | none => []
    nonce := match rpcTx.nonce with
      | some n => n
      | none => node.getAccountNonce rpcTx.from_ }

/-- The trailing object literal of
`EthModule._rpcFilterRequestToGetLogsParams`: the four criteria fields,
with the first block-extraction failure (source evaluation order)
propagated. -/
def filterRequestFields (filter : RpcFilterRequest) :
    Except RpcError FilterParams :=
  match _extractBlock filter.fromBlock, _extractBlock filter.toBlock with
  | .ok fb, .ok tb =>
    .ok { fromBlock := fb, toBlock := tb,
          topics := _extractLogTopics filter.topics,
          addresses := _extractLogAddresses filter.address }
  | .error e, _ => .error e
  | .ok _, .error e => .error e

/-- `EthModule._rpcFilterRequestToGetLogsParams`: blockHash is mutually
exclusive with the range fields; a present blockHash is resolved through
the node and pins both range ends to that block number. -/
def _rpcFilterRequestToGetLogsParams (node : BuidlerNode)
    (filter : RpcFilterRequest) : Except RpcError FilterParams :=
  match filter.blockHash with
  | some bh =>
    if filter.fromBlock ≠ none ∨ filter.toBlock ≠ none then
      .error (.invalidArguments
        "blockHash is mutually exclusive with fromBlock/toBlock")
    else
      match node.getBlockByHash bh with
      | none => .error (.invalidArguments "blockHash cannot be found")
      | some block =>
        filterRequestFields
          { filter with
            fromBlock := some (.number block.header.number),
            toBlock := some (.number block.header.number) }
  | none => filterRequestFields filter

/-! ## Actions of `EthModule` -/

/-- `EthModule._callAction`. -/
def _callAction (node : BuidlerNode) (rpcCall : RpcCallRequest)
    (blockTag : OptionalBlockTag) : Except RpcError String := do
  _validateBlockTag blockTag
  let callParams := _rpcCallRequestToNodeCallParams node rpcCall
  pure (bufferToRpcData (node.runCall callParams))

/-- `EthModule._estimateGasAction`. -/
def _estimateGasAction (node : BuidlerNode)
    (transactionRequest : RpcTransactionRequest)
    (blockTag : OptionalBlockTag) : Except RpcError String := do
  _validateBlockTag blockTag
  let txParams :=
    _rpcTransactionRequestToNodeTransactionParams node transactionRequest
  pure (numberToRpcQuantity (node.estimateGas txParams))

/-- `EthModule._getBalanceAction`. -/
def _getBalanceAction (node : BuidlerNode) (address : Bytes)
    (blockTag : OptionalBlockTag) : Except RpcError String := do
  _validateBlockTag blockTag
  pure (numberToRpcQuantity (node.getAccountBalance address))

/-- `EthModule._getCodeAction`. -/
def _getCodeAction (node : BuidlerNode) (address : Bytes)
    (blockTag : OptionalBlockTag) : Except RpcError String := do
  _validateBlockTag blockTag
  pure (bufferToRpcData (node.getCode address))

/-- `EthModule._getTransactionCountAction`. -/
def _getTransactionCountAction (node : BuidlerNode) (address : Bytes)
    (blockTag : OptionalBlockTag) : Except RpcError String := do
  _validateBlockTag blockTag
  pure (numberToRpcQuantity (node.getAccountNonce address))

/-- `EthModule._getStorageAtAction`: an empty storage read answers the
Quantity-style literal `0x0` (imitating Ganache); anything else is encoded
as Data. -/
def _getStorageAtAction (node : BuidlerNode) (address : Bytes) (slot : Nat)
    (blockTag : OptionalBlockTag) : Except RpcError String := do
  _validateBlockTag blockTag
  let data := node.getStorageAt address slot
  if data.length = 0 then pure "0x0"
  else pure (bufferToRpcData data)

/-- `EthModule._getLogsAction`. -/
def _getLogsAction (node : BuidlerNode) (filter : RpcFilterRequest) :
    Except RpcError (List Bytes) := do
  let filterParams ← _rpcFilterRequestToGetLogsParams node filter
  pure (node.getLogs filterParams)

/-- `EthModule._newFilterAction`. -/
def _newFilterAction (node : BuidlerNode) (filter : RpcFilterRequest) :
    Except RpcError String := do
  let filterParams ← _rpcFilterRequestToGetLogsParams node filter
  pure (numberToRpcQuantity (node.newFilter filterParams))

/-! ## eth_sendRawTransaction -/

/-- The node mutations a request performs, in order. -/
inductive NodeOp
  | runTransactionInNewBlock (tx : Transaction)
  deriving DecidableEq

/-- `error.message.includes(substring)` of JavaScript. -/
def stringIncludes (s sub : String) : Bool := decide (sub.data <:+: s.data)

/-- `EthModule._sendRawTransactionAction`.  The `new Transaction(rawTx)`
decoder is the external `ethereumjs-tx` constructor, passed in as a
function returning either the transaction or the thrown error message.
The second component lists the node mutations performed: the error
reclassification happens before `runTransactionInNewBlock` is reached. -/
def _sendRawTransactionAction (decode : Bytes → Except String Transaction)
    (rawTx : Bytes) : Except RpcError String × List NodeOp :=
  match decode rawTx with
  | .error msg =>
    if msg = "invalid remainder" then
      (.error (.invalidInput "Invalid transaction"), [])
    else if stringIncludes msg "EIP155" then
      (.error (.invalidInput msg), [])
    else
      (.error (.other msg), [])
  | .ok tx =>
    (.ok (bufferToRpcData tx.hashTrue), [.runTransactionInNewBlock tx])

/-! ## eth_subscribe / eth_unsubscribe -/

/-- A positional JSON-RPC argument as this layer sees it before
validation: a JSON scalar/object or a callback function value. -/
inductive RpcValue
  | str (s : String)
  | boolVal (b : Bool)
  | callback
  | filterObj (f : RpcFilterRequest)
  | other
  deriving DecidableEq

/-- `typeof v === "function"` for an argument value. -/
def isFunctionValue : RpcValue → Bool
  | .callback => true
  | _ => false

/-- `RpcSubscribeRequest` of `../input`. -/
inductive RpcSubscribeRequest
  | newHeads
  | newPendingTransactions
  | logs
  deriving DecidableEq

/-- Modelled from the spec: the `rpcSubscribeRequest` validator of
`../input` (not under the sources): the subscription kind must be one of
the three literal names. -/
def decodeSubscribeRequest : RpcValue → Except RpcError RpcSubscribeRequest
  | .str "newHeads" => .ok .newHeads
  | .str "newPendingTransactions" => .ok .newPendingTransactions
  | .str "logs" => .ok .logs
  | _ => .error (.invalidInput "invalid subscription name")

/-- Modelled from the spec: the `optionalRpcFilterRequest` validator of
`../input` (not under the sources): a structured filter request object. -/
def decodeOptionalFilterRequest : RpcValue → Except RpcError RpcFilterRequest
  | .filterObj f => .ok f
  | _ => .error (.invalidInput "invalid filter request")

/-- `EthModule._subscribeParams`: rejects an empty argument list and a
missing callback, pops the trailing callback, and validates the remaining
one-or-two arguments against `(rpcSubscribeRequest,
optionalRpcFilterRequest)` (the shared validator is modelled from the
spec: the second schema is tail-optional).  The validated callback value
is implicit in the pure embedding. -/
def _subscribeParams (params : List RpcValue) :
    Except RpcError (RpcSubscribeRequest × Option RpcFilterRequest) :=
  if params.length = 0 then
    .error (.invalidInput "Notifications not supported")
  else if params.length = 1 then
    .error (.invalidInput "Expected subscription name as first argument")
  else
    match params.getLast? with
    | none => .error (.invalidInput "Notifications not supported")
    | some cb =>
      if isFunctionValue cb = false then
        .error (.invalidInput "Notifications not supported")
      else
        match params.dropLast with
        | [v] => (decodeSubscribeRequest v).map fun r => (r, none)
        | [v, f] => do
          let r ← decodeSubscribeRequest v
          let fr ← decodeOptionalFilterRequest f
          pure (r, some fr)
        | _ => .error (.invalidInput "wrong number of arguments")

/-- `EthModule._subscribeAction`: allocate the node filter matching the
subscription kind; a logs subscription without criteria is rejected. -/
def _subscribeAction (node : BuidlerNode)
    (subscribeRequest : RpcSubscribeRequest)
    (optionalFilterRequest : Option RpcFilterRequest) :
    Except RpcError String :=
  match subscribeRequest with
  | .newHeads => .ok (numberToRpcQuantity node.newBlockFilter)
  | .newPendingTransactions =>
    .ok (numberToRpcQuantity node.newPendingTransactionFilter)
  | .logs =>
    match optionalFilterRequest with
    | none => .error (.invalidArguments "missing params argument")
    | some filterRequest => do
      let filterParams ← _rpcFilterRequestToGetLogsParams node filterRequest
      pure (numberToRpcQuantity (node.newFilter filterParams))

/-- The `eth_subscribe` pipeline of `processRequest`: parameter
extraction followed by the action. -/
def processEthSubscribe (node : BuidlerNode) (params : List RpcValue) :
    Except RpcError String := do
  let (req, optFilter) ← _subscribeParams params
  _subscribeAction node req optFilter

/-- Modelled from the spec: the `rpcQuantity` validator of `../input`
applied to one positional argument. -/
def rpcQuantityValue : RpcValue → Except RpcError Nat
  | .str s => decodeQuantity s
  | _ => .error (.invalidInput "quantity argument expected")

/-- `EthModule._unsubscribeParams`: `validateParams(params, rpcQuantity)`
(arity handling of the shared validator modelled from the spec). -/
def _unsubscribeParams (params : List RpcValue) : Except RpcError Nat :=
  match params with
  | [v] => rpcQuantityValue v
  | [] => .error (.invalidInput "missing required argument")
  | _ => .error (.invalidInput "too many arguments")

/-- `EthModule._unsubscribeAction`. -/
def _unsubscribeAction (node : BuidlerNode) (filterId : Nat) :
    Except RpcError Bool :=
  .ok (node.uninstallFilter filterId true)

/-! ## Parameter arity validation (C9) -/

/-- One positional argument schema of the shared validator: a shape check
and whether the argument is tail-optional. -/
structure ParamSchema where
  check : RpcValue → Bool
  optional : Bool

/-- Modelled from the spec: `validateParams` of `../input` (not under the
sources): a fixed ordered list of expected argument schemas; extra
arguments beyond the schema length fail, missing required arguments fail,
and each supplied argument must pass its positional shape check. -/
def validateParamsModel : List ParamSchema → List RpcValue →
    Except RpcError (List RpcValue)
  | [], [] => .ok []
  | [], _ :: _ => .error (.invalidInput "too many arguments")
  | s :: ss, [] =>
    if s.optional then validateParamsModel ss []
    else .error (.invalidInput "missing required argument")
  | s :: ss, p :: ps =>
    if s.check p then
      match validateParamsModel ss ps with
      | .ok rest => .ok (p :: rest)
      | .error e => .error e
    else .error (.invalidInput "invalid argument")

/-- `EthModule._newBlockFilterParams`: returns `[]` without consulting the
validator, so the argument list is ignored. -/
def _newBlockFilterParams (_params : List RpcValue) :
    Except RpcError Unit := .ok ()

/-- `EthModule._newPendingTransactionParams`: returns `[]` without
consulting the validator. -/
def _newPendingTransactionParams (_params : List RpcValue) :
    Except RpcError Unit := .ok ()

/-- `EthModule._pendingTransactionsParams`: returns `[]` without
consulting the validator. -/
def _pendingTransactionsParams (_params : List RpcValue) :
    Except RpcError Unit := .ok ()

/-- `EthModule._accountsParams`: `validateParams(params)` with an empty
schema list, for contrast with the three filter methods above. -/
def _accountsParams (params : List RpcValue) :
    Except RpcError (List RpcValue) :=
  validateParamsModel [] params

/-- A small concrete node for the closed witness instances: one local
account, one block (number 7) stored under hash `[5]`, empty storage. -/
def sampleNode : BuidlerNode where
  getLocalAccountAddresses := [[1, 2]]
  getBlockByHash := fun h =>
    if h = [5] then some { header := { number := 7 } } else none
  getBlockGasLimit := 10000000
  getGasPrice := 8
  getAccountBalance := fun _ => 0
  getAccountNonce := fun _ => 0
  getCode := fun _ => []
  getStorageAt := fun _ _ => []
  runCall := fun _ => []
  estimateGas := fun _ => 21000
  getLogs := fun _ => []
  newFilter := fun _ => 1
  newBlockFilter := 2
  newPendingTransactionFilter := 3
  uninstallFilter := fun _ _ => true

/-- A variant of the sample node with no local accounts. -/
def sampleNodeNoAccounts : BuidlerNode :=
  { sampleNode with getLocalAccountAddresses := [] }

/-- A variant of the sample node with a non-empty storage slot. -/
def sampleNodeWithStorage : BuidlerNode :=
  { sampleNode with getStorageAt := fun _ _ => [0, 255] }

/-! ## Theorems -/

theorem hexCharToDigit_hexChar : ∀ d < 16, hexCharToDigit (hexChar d) = some d := by
  decide

theorem hexChar_ne_zero_char : ∀ d < 16, d ≠ 0 → hexChar d ≠ '0' := by
  decide

theorem hexCharsToDigits_map_hexChar (l : List Nat) (h : ∀ d ∈ l, d < 16) :
    hexCharsToDigits (l.map hexChar) = some l := by
  induction l with
  | nil => rfl
  | cons a t ih =>
    have ha : hexCharToDigit (hexChar a) = some a :=
      hexCharToDigit_hexChar a (h a (List.mem_cons_self a t))
    have ht : hexCharsToDigits (t.map hexChar) = some t :=
      ih (fun d hd => h d (List.mem_cons_of_mem a hd))
    simp [hexCharsToDigits, ha, ht]

theorem decodeQuantity_mk_cons (l : List Char) :
    decodeQuantity ⟨'0' :: 'x' :: l⟩ = decodeQuantityDigits l := rfl

/-- Round trip: strict quantity decoding accepts exactly what the canonical
encoder produces, recovering the value. -/
theorem decodeQuantity_numberToRpcQuantity (n : Nat) :
    decodeQuantity (numberToRpcQuantity n) = .ok n := by
  rcases Nat.eq_zero_or_pos n with h0 | hpos
  · subst h0; rfl
  · have hne : n ≠ 0 := Nat.pos_iff_ne_zero.mp hpos
    have hnil : Nat.digits 16 n ≠ [] := Nat.digits_ne_nil_iff_ne_zero.mpr hne
    unfold numberToRpcQuantity
    rw [if_neg hne, decodeQuantity_mk_cons]
    have hmem : ∀ d ∈ (Nat.digits 16 n).reverse, d < 16 := by
      intro d hd
      exact Nat.digits_lt_base (by norm_num) (List.mem_reverse.mp hd)
    have hmap := hexCharsToDigits_map_hexChar (Nat.digits 16 n).reverse hmem
    have hlastne : (Nat.digits 16 n).getLast hnil ≠ 0 :=
      Nat.getLast_digit_ne_zero 16 hne
    have hlastlt : (Nat.digits 16 n).getLast hnil < 16 := by
      apply Nat.digits_lt_base (by norm_num)
      exact List.getLast_mem hnil
    have hhead : ((Nat.digits 16 n).reverse.map hexChar).head? =
        some (hexChar ((Nat.digits 16 n).getLast hnil)) := by
      rw [List.head?_map, List.head?_reverse, List.getLast?_eq_getLast _ hnil]
      rfl
    have hmapne : (Nat.digits 16 n).reverse.map hexChar ≠ [] := by
      simp [hnil]
    unfold decodeQuantityDigits
    rw [if_neg hmapne]
    rw [if_neg ?_, hmap]
    · simp [List.reverse_reverse, Nat.ofDigits_digits]
    · rintro ⟨-, hzero⟩
      rw [hhead] at hzero
      exact hexChar_ne_zero_char _ hlastlt hlastne (Option.some.inj hzero)

/-- C1: For every method name given to the dispatcher exactly one of three
outcomes occurs: a name in the supported set is routed to its handler, a
name in the explicitly-unsupported set always fails with
MethodNotSupported (so never MethodNotFound), and every name outside both
sets always fails with MethodNotFound. -/
theorem processRequest_trichotomy :
    (∀ m ∈ supportedMethods, processRequestOutcome m = .supported) ∧
    (∀ m ∈ unsupportedMethods,
      processRequestOutcome m =
        .notSupported ("Method " ++ m ++ " is not supported")) ∧
    (∀ m, m ∉ supportedMethods → m ∉ unsupportedMethods →
      processRequestOutcome m = .notFound ("Method " ++ m ++ " not found")) := by
  refine ⟨?_, ?_, ?_⟩
  · intro m hm
    fin_cases hm <;> rfl
  · intro m hm
    fin_cases hm <;> rfl
  · intro m hs hu
    simp only [supportedMethods, unsupportedMethods, List.mem_cons,
      List.not_mem_nil, or_false, not_or] at hs hu
    obtain ⟨s1, s2, s3, s4, s5, s6, s7, s8, s9, s10, s11, s12, s13, s14,
      s15, s16, s17, s18, s19, s20, s21, s22, s23, s24, s25, s26, s27, s28,
      s29, s30, s31, s32, s33, s34, s35⟩ := hs
    obtain ⟨u1, u2, u3, u4, u5, u6, u7, u8, u9, u10, u11, u12, u13, u14,
      u15⟩ := hu
    unfold processRequestOutcome
    rw [if_neg s1, if_neg s2, if_neg s3, if_neg s4, if_neg s5, if_neg u12,
      if_neg u13, if_neg u14, if_neg s6, if_neg s7, if_neg s8, if_neg s9,
      if_neg s10, if_neg s11, if_neg s12, if_neg s13, if_neg u15,
      if_neg s14, if_neg s15, if_neg s16, if_neg u3, if_neg s17,
      if_neg s18, if_neg s19, if_neg s20, if_neg s21, if_neg s22,
      if_neg u4, if_neg u5, if_neg u6, if_neg u7, if_neg u11, if_neg u2,
      if_neg s23, if_neg s24, if_neg s25, if_neg s26, if_neg s27,
      if_neg u1, if_neg s28, if_neg s29, if_neg s30, if_neg u8,
      if_neg s31, if_neg u10, if_neg u9, if_neg s32, if_neg s33,
      if_neg s34, if_neg s35]

/-- Closed instances of C1 at one name of each class. -/
theorem processRequest_trichotomy_witness :
    processRequestOutcome "eth_call" = .supported ∧
    processRequestOutcome "eth_hashrate" =
      .notSupported "Method eth_hashrate is not supported" ∧
    processRequestOutcome "eth_foo" = .notFound "Method eth_foo not found" :=
  ⟨processRequest_trichotomy.1 "eth_call" (by decide),
   processRequest_trichotomy.2.1 "eth_hashrate" (by decide),
   processRequest_trichotomy.2.2 "eth_foo" (by decide) (by decide)⟩

theorem bytesToHexChars_length (b : Bytes) :
    (bytesToHexChars b).length = 2 * b.length := by
  induction b with
  | nil => rfl
  | cons x xs ih =>
    simp only [bytesToHexChars, List.length_cons, ih]
    ring

theorem bufferToRpcData_length (b : Bytes) :
    (bufferToRpcData b).length = 2 + 2 * b.length := by
  have h : (bufferToRpcData b).length =
      ('0' :: 'x' :: bytesToHexChars b).length := rfl
  rw [h]
  simp [bytesToHexChars_length]
  ring

/-- C7: In a filter range, the tag `earliest` resolves to block number 0,
an absent tag and `latest` both resolve to the dynamic-head sentinel `-1`,
`pending` fails with InvalidArguments, and an explicit block number
resolves to itself. -/
theorem extractBlock_policy :
    _extractBlock (some .earliest) = .ok 0 ∧
    _extractBlock none = .ok (-1) ∧
    _extractBlock (some .latest) = .ok (-1) ∧
    _extractBlock (some .pending) =
      .error (.invalidArguments "pending not supported") ∧
    (∀ n : Nat, _extractBlock (some (.number n)) = .ok (Int.ofNat n)) :=
  ⟨rfl, rfl, rfl, rfl, fun _ => rfl⟩

/-- C8: An absent filter address normalizes to the empty list, a single
address to a one-element list, a list passes through verbatim; absent or
empty topics normalize to the empty list, and otherwise each slot maps in
order to a single-alternative list (bare hash), the same list (list), or
"any" (null). -/
theorem extractLog_normalization :
    _extractLogAddresses none = [] ∧
    (∀ a, _extractLogAddresses (some (.single a)) = [a]) ∧
    (∀ as, _extractLogAddresses (some (.list as)) = as) ∧
    _extractLogTopics none = [] ∧
    _extractLogTopics (some []) = [] ∧
    (∀ ts, _extractLogTopics (some ts) =
      ts.map fun t =>
        match t with
        | .single h => some [some h]
        | .list hs => some hs
        | .null => none) := by
  refine ⟨rfl, fun a => rfl, fun as => rfl, rfl, rfl, fun ts => ?_⟩
  cases ts with
  | nil => rfl
  | cons h t => rfl

/-- C10: When the storage read returns a zero-length value,
`eth_getStorageAt` answers the Quantity-style string `0x0`; otherwise it
answers the `0x`-prefixed even-length Data encoding of the bytes — two
incompatible encodings (`0x0` has odd length and is never a Data
encoding). -/
theorem getStorageAt_result_encoding :
    (∀ node a s tag, _validateBlockTag tag = .ok () →
      node.getStorageAt a s = [] →
      _getStorageAtAction node a s tag = .ok "0x0") ∧
    (∀ node a s tag, _validateBlockTag tag = .ok () →
      node.getStorageAt a s ≠ [] →
      _getStorageAtAction node a s tag =
        .ok (bufferToRpcData (node.getStorageAt a s))) ∧
    (∀ b, (bufferToRpcData b).length = 2 + 2 * b.length) ∧
    (∀ b, bufferToRpcData b ≠ "0x0") := by
  refine ⟨?_, ?_, bufferToRpcData_length, ?_⟩
  · intro node a s tag hv h
    unfold _getStorageAtAction
    rw [hv, h]
    rfl
  · intro node a s tag hv h
    unfold _getStorageAtAction
    rw [hv]
    show (if (node.getStorageAt a s).length = 0 then _ else _) = _
    rw [if_neg (fun hlen => h (List.length_eq_zero.mp hlen))]
    rfl
  · intro b hb
    have h1 := bufferToRpcData_length b
    rw [hb] at h1
    have h2 : ("0x0" : String).length = 3 := rfl
    rw [h2] at h1
    omega

/-- Closed instances of C10: the sample node with empty storage answers
`0x0`; the one with bytes `[0, 255]` answers their Data encoding. -/
theorem getStorageAt_result_encoding_witness :
    _getStorageAtAction sampleNode [1] 0 none = .ok "0x0" ∧
    _getStorageAtAction sampleNodeWithStorage [1] 0 none =
      .ok (bufferToRpcData [0, 255]) :=
  ⟨getStorageAt_result_encoding.1 sampleNode [1] 0 none rfl rfl,
   getStorageAt_result_encoding.2.1 sampleNodeWithStorage [1] 0 none rfl
     (by decide)⟩

/-- C6: Normalizing a CallRequest fills an omitted `to` with the empty
byte sequence, omitted `data` with empty, omitted `value` with 0, omitted
`gas` with the node block gas limit, omitted `gasPrice` with the node gas
price, and an omitted `from` with the first local account or the zero
address when there is none; present fields pass through unchanged. -/
theorem callRequest_defaults :
    (∀ node rc, rc.to_ = none →
      (_rpcCallRequestToNodeCallParams node rc).to_ = []) ∧
    (∀ node rc x, rc.to_ = some x →
      (_rpcCallRequestToNodeCallParams node rc).to_ = x) ∧
    (∀ node rc, rc.data = none →
      (_rpcCallRequestToNodeCallParams node rc).data = []) ∧
    (∀ node rc x, rc.data = some x →
      (_rpcCallRequestToNodeCallParams node rc).data = x) ∧
    (∀ node rc, rc.value = none →
      (_rpcCallRequestToNodeCallParams node rc).value = 0) ∧
    (∀ node rc x, rc.value = some x →
      (_rpcCallRequestToNodeCallParams node rc).value = x) ∧
    (∀ node rc, rc.gas = none →
      (_rpcCallRequestToNodeCallParams node rc).gasLimit =
        node.getBlockGasLimit) ∧
    (∀ node rc x, rc.gas = some x →
      (_rpcCallRequestToNodeCallParams node rc).gasLimit = x) ∧
    (∀ node rc, rc.gasPrice = none →
      (_rpcCallRequestToNodeCallParams node rc).gasPrice =
        node.getGasPrice) ∧
    (∀ node rc x, rc.gasPrice = some x →
      (_rpcCallRequestToNodeCallParams node rc).gasPrice = x) ∧
    (∀ node rc, rc.from_ = none → node.getLocalAccountAddresses = [] →
      (_rpcCallRequestToNodeCallParams node rc).from_ = zeroAddress) ∧
    (∀ node rc a accs, rc.from_ = none →
      node.getLocalAccountAddresses = a :: accs →
      (_rpcCallRequestToNodeCallParams node rc).from_ = a) ∧
    (∀ node rc x, rc.from_ = some x →
      (_rpcCallRequestToNodeCallParams node rc).from_ = x) := by
  refine ⟨?_, ?_, ?_, ?_, ?_, ?_, ?_, ?_, ?_, ?_, ?_, ?_, ?_⟩
  · intro node rc h; simp [_rpcCallRequestToNodeCallParams, h]
  · intro node rc x h; simp [_rpcCallRequestToNodeCallParams, h]
  · intro node rc h; simp [_rpcCallRequestToNodeCallParams, h]
  · intro node rc x h; simp [_rpcCallRequestToNodeCallParams, h]
  · intro node rc h; simp [_rpcCallRequestToNodeCallParams, h]
  · intro node rc x h; simp [_rpcCallRequestToNodeCallParams, h]
  · intro node rc h; simp [_rpcCallRequestToNodeCallParams, h]
  · intro node rc x h; simp [_rpcCallRequestToNodeCallParams, h]
  · intro node rc h; simp [_rpcCallRequestToNodeCallParams, h]
  · intro node rc x h; simp [_rpcCallRequestToNodeCallParams, h]
  · intro node rc h hacc
    simp [_rpcCallRequestToNodeCallParams, _getDefaultCallFrom, h, hacc]
  · intro node rc a accs h hacc
    simp [_rpcCallRequestToNodeCallParams, _getDefaultCallFrom, h, hacc]
  · intro node rc x h; simp [_rpcCallRequestToNodeCallParams, h]

/-- Closed instances of C6 at the sample nodes and an all-defaults
request. -/
theorem callRequest_defaults_witness :
    (_rpcCallRequestToNodeCallParams sampleNode {}).to_ = [] ∧
    (_rpcCallRequestToNodeCallParams sampleNode {}).from_ = [1, 2] ∧
    (_rpcCallRequestToNodeCallParams sampleNodeNoAccounts {}).from_ =
      zeroAddress ∧
    (_rpcCallRequestToNodeCallParams sampleNode
      { value := some 42 }).value = 42 :=
  ⟨callRequest_defaults.1 sampleNode {} rfl,
   callRequest_defaults.2.2.2.2.2.2.2.2.2.2.2.1 sampleNode {} [1, 2] []
     rfl rfl,
   callRequest_defaults.2.2.2.2.2.2.2.2.2.2.1 sampleNodeNoAccounts {} rfl
     rfl,
   callRequest_defaults.2.2.2.2.2.1 sampleNode { value := some 42 } 42 rfl⟩

/-- C2: For every filter/log request with a `blockHash`: combining it
with `fromBlock`/`toBlock` fails with InvalidArguments (through
`eth_getLogs`, `eth_newFilter` and the logs branch of `eth_subscribe`
alike); a hash unknown to the node fails with InvalidArguments; and a
known hash pins both criteria range ends to that block's number. -/
theorem filterRequest_blockHash_policy :
    ∀ (node : BuidlerNode) (f : RpcFilterRequest) (bh : Bytes),
      f.blockHash = some bh →
      ((f.fromBlock ≠ none ∨ f.toBlock ≠ none) →
        _rpcFilterRequestToGetLogsParams node f =
          .error (.invalidArguments
            "blockHash is mutually exclusive with fromBlock/toBlock") ∧
        _getLogsAction node f =
          .error (.invalidArguments
            "blockHash is mutually exclusive with fromBlock/toBlock") ∧
        _newFilterAction node f =
          .error (.invalidArguments
            "blockHash is mutually exclusive with fromBlock/toBlock") ∧
        _subscribeAction node .logs (some f) =
          .error (.invalidArguments
            "blockHash is mutually exclusive with fromBlock/toBlock")) ∧
      (f.fromBlock = none → f.toBlock = none →
        node.getBlockByHash bh = none →
        _rpcFilterRequestToGetLogsParams node f =
          .error (.invalidArguments "blockHash cannot be found") ∧
        _getLogsAction node f =
          .error (.invalidArguments "blockHash cannot be found") ∧
        _newFilterAction node f =
          .error (.invalidArguments "blockHash cannot be found") ∧
        _subscribeAction node .logs (some f) =
          .error (.invalidArguments "blockHash cannot be found")) ∧
      (∀ b, f.fromBlock = none → f.toBlock = none →
        node.getBlockByHash bh = some b →
        _rpcFilterRequestToGetLogsParams node f =
          .ok { fromBlock := Int.ofNat b.header.number,
                toBlock := Int.ofNat b.header.number,
                topics := _extractLogTopics f.topics,
                addresses := _extractLogAddresses f.address }) := by
  intro node f bh hbh
  refine ⟨?_, ?_, ?_⟩
  · intro hft
    have h1 : _rpcFilterRequestToGetLogsParams node f =
        .error (.invalidArguments
          "blockHash is mutually exclusive with fromBlock/toBlock") := by
      unfold _rpcFilterRequestToGetLogsParams
      simp only [hbh]
      rw [if_pos hft]
    refine ⟨h1, ?_, ?_, ?_⟩
    · unfold _getLogsAction; rw [h1]; rfl
    · unfold _newFilterAction; rw [h1]; rfl
    · simp only [_subscribeAction, h1]; rfl
  · intro hf ht hblk
    have h1 : _rpcFilterRequestToGetLogsParams node f =
        .error (.invalidArguments "blockHash cannot be found") := by
      unfold _rpcFilterRequestToGetLogsParams
      simp only [hbh, hf, ht, hblk]
      rw [if_neg (by simp)]
    refine ⟨h1, ?_, ?_, ?_⟩
    · unfold _getLogsAction; rw [h1]; rfl
    · unfold _newFilterAction; rw [h1]; rfl
    · simp only [_subscribeAction, h1]; rfl
  · intro b hf ht hblk
    unfold _rpcFilterRequestToGetLogsParams
    simp only [hbh, hf, ht, hblk]
    rw [if_neg (by simp)]
    rfl

/-- Closed instances of C2 against the sample node (block number 7 under
hash `[5]`): the three outcomes at concrete filters. -/
theorem filterRequest_blockHash_policy_witness :
    _rpcFilterRequestToGetLogsParams sampleNode
      { blockHash := some [5], fromBlock := some .latest } =
      .error (.invalidArguments
        "blockHash is mutually exclusive with fromBlock/toBlock") ∧
    _rpcFilterRequestToGetLogsParams sampleNode { blockHash := some [9] } =
      .error (.invalidArguments "blockHash cannot be found") ∧
    _rpcFilterRequestToGetLogsParams sampleNode { blockHash := some [5] } =
      .ok { fromBlock := 7, toBlock := 7, topics := [], addresses := [] } :=
  ⟨((filterRequest_blockHash_policy sampleNode
      { blockHash := some [5], fromBlock := some .latest } [5] rfl).1
      (Or.inl (by decide))).1,
   ((filterRequest_blockHash_policy sampleNode
      { blockHash := some [9] } [9] rfl).2.1 rfl rfl (by decide)).1,
   (filterRequest_blockHash_policy sampleNode
      { blockHash := some [5] } [5] rfl).2.2
      { header := { number := 7 } } rfl rfl rfl⟩

/-- C3: For `eth_call`, `eth_estimateGas`, `eth_getBalance`,
`eth_getCode`, `eth_getStorageAt` and `eth_getTransactionCount`, an
explicit block number or `earliest` fails with InvalidInput (for every
node, hence before any node call), while an omitted tag, `latest` and
`pending` succeed and give identical results on the same node state. -/
theorem blockTag_validation_policy :
    (∀ (node : BuidlerNode) rc n, _callAction node rc (some (.number n)) =
      .error (.invalidInput
        "Only latest and pending block params are supported")) ∧
    (∀ (node : BuidlerNode) rc, _callAction node rc (some .earliest) =
      .error (.invalidInput
        "Only latest and pending block params are supported")) ∧
    (∀ (node : BuidlerNode) rc,
      _callAction node rc none = _callAction node rc (some .latest)) ∧
    (∀ (node : BuidlerNode) rc,
      _callAction node rc none = _callAction node rc (some .pending)) ∧
    (∀ (node : BuidlerNode) rc, (_callAction node rc none).isOk = true) ∧
    (∀ (node : BuidlerNode) tx n,
      _estimateGasAction node tx (some (.number n)) =
      .error (.invalidInput
        "Only latest and pending block params are supported")) ∧
    (∀ (node : BuidlerNode) tx, _estimateGasAction node tx (some .earliest) =
      .error (.invalidInput
        "Only latest and pending block params are supported")) ∧
    (∀ (node : BuidlerNode) tx, _estimateGasAction node tx none =
      _estimateGasAction node tx (some .latest)) ∧
    (∀ (node : BuidlerNode) tx, _estimateGasAction node tx none =
      _estimateGasAction node tx (some .pending)) ∧
    (∀ (node : BuidlerNode) tx,
      (_estimateGasAction node tx none).isOk = true) ∧
    (∀ (node : BuidlerNode) a n, _getBalanceAction node a (some (.number n)) =
      .error (.invalidInput
        "Only latest and pending block params are supported")) ∧
    (∀ (node : BuidlerNode) a, _getBalanceAction node a (some .earliest) =
      .error (.invalidInput
        "Only latest and pending block params are supported")) ∧
    (∀ (node : BuidlerNode) a, _getBalanceAction node a none =
      _getBalanceAction node a (some .latest)) ∧
    (∀ (node : BuidlerNode) a, _getBalanceAction node a none =
      _getBalanceAction node a (some .pending)) ∧
    (∀ (node : BuidlerNode) a, (_getBalanceAction node a none).isOk = true) ∧
    (∀ (node : BuidlerNode) a n, _getCodeAction node a (some (.number n)) =
      .error (.invalidInput
        "Only latest and pending block params are supported")) ∧
    (∀ (node : BuidlerNode) a, _getCodeAction node a (some .earliest) =
      .error (.invalidInput
        "Only latest and pending block params are supported")) ∧
    (∀ (node : BuidlerNode) a, _getCodeAction node a none =
      _getCodeAction node a (some .latest)) ∧
    (∀ (node : BuidlerNode) a, _getCodeAction node a none =
      _getCodeAction node a (some .pending)) ∧
    (∀ (node : BuidlerNode) a, (_getCodeAction node a none).isOk = true) ∧
    (∀ (node : BuidlerNode) a s n,
      _getStorageAtAction node a s (some (.number n)) =
      .error (.invalidInput
        "Only latest and pending block params are supported")) ∧
    (∀ (node : BuidlerNode) a s,
      _getStorageAtAction node a s (some .earliest) =
      .error (.invalidInput
        "Only latest and pending block params are supported")) ∧
    (∀ (node : BuidlerNode) a s, _getStorageAtAction node a s none =
      _getStorageAtAction node a s (some .latest)) ∧
    (∀ (node : BuidlerNode) a s, _getStorageAtAction node a s none =
      _getStorageAtAction node a s (some .pending)) ∧
    (∀ (node : BuidlerNode) a s,
      (_getStorageAtAction node a s none).isOk = true) ∧
    (∀ (node : BuidlerNode) a n,
      _getTransactionCountAction node a (some (.number n)) =
      .error (.invalidInput
        "Only latest and pending block params are supported")) ∧
    (∀ (node : BuidlerNode) a,
      _getTransactionCountAction node a (some .earliest) =
      .error (.invalidInput
        "Only latest and pending block params are supported")) ∧
    (∀ (node : BuidlerNode) a, _getTransactionCountAction node a none =
      _getTransactionCountAction node a (some .latest)) ∧
    (∀ (node : BuidlerNode) a, _getTransactionCountAction node a none =
      _getTransactionCountAction node a (some .pending)) ∧
    (∀ (node : BuidlerNode) a,
      (_getTransactionCountAction node a none).isOk = true) := by
  refine ⟨?_, ?_, ?_, ?_, ?_, ?_, ?_, ?_, ?_, ?_, ?_, ?_, ?_, ?_, ?_, ?_,
    ?_, ?_, ?_, ?_, ?_, ?_, ?_, ?_, ?_, ?_, ?_, ?_, ?_, ?_⟩ <;>
    intros <;> try rfl
  rename_i node a s
  unfold _getStorageAtAction
  show (if (node.getStorageAt a s).length = 0 then
          (pure "0x0" : Except RpcError String)
        else pure (bufferToRpcData (node.getStorageAt a s))).isOk = true
  by_cases h : (node.getStorageAt a s).length = 0
  · rw [if_pos h]; rfl
  · rw [if_neg h]; rfl

/-- C4: A raw-transaction decode failure with message exactly
`invalid remainder` (the malformed-remainder cause) is reclassified as
InvalidInput `Invalid transaction`; a failure mentioning `EIP155` is
reclassified as InvalidInput with the original message; any other failure
is rethrown unchanged; and in every decode-failure case no node mutation
is performed. -/
theorem sendRawTransaction_decode_policy :
    (∀ decode (rawTx : Bytes), decode rawTx = .error "invalid remainder" →
      _sendRawTransactionAction decode rawTx =
        (.error (.invalidInput "Invalid transaction"), [])) ∧
    (∀ decode (rawTx : Bytes) msg, decode rawTx = .error msg →
      stringIncludes msg "EIP155" = true →
      _sendRawTransactionAction decode rawTx =
        (.error (.invalidInput msg), [])) ∧
    (∀ decode (rawTx : Bytes) msg, decode rawTx = .error msg →
      msg ≠ "invalid remainder" → stringIncludes msg "EIP155" = false →
      _sendRawTransactionAction decode rawTx = (.error (.other msg), [])) ∧
    (∀ decode (rawTx : Bytes) msg, decode rawTx = .error msg →
      (_sendRawTransactionAction decode rawTx).2 = []) := by
  refine ⟨?_, ?_, ?_, ?_⟩
  · intro decode rawTx h
    unfold _sendRawTransactionAction
    rw [h]
    rfl
  · intro decode rawTx msg h hinc
    have hne : msg ≠ "invalid remainder" := by
      intro he
      subst he
      exact absurd hinc (by decide)
    unfold _sendRawTransactionAction
    rw [h]
    show (if msg = "invalid remainder" then _ else _) = _
    rw [if_neg hne, if_pos hinc]
  · intro decode rawTx msg h hne hinc
    unfold _sendRawTransactionAction
    rw [h]
    show (if msg = "invalid remainder" then _ else _) = _
    rw [if_neg hne, if_neg (by simp [hinc])]
  · intro decode rawTx msg h
    unfold _sendRawTransactionAction
    rw [h]
    show (Prod.snd (if msg = "invalid remainder" then _ else _) :
      List NodeOp) = _
    split_ifs <;> rfl

/-- Closed instances of C4 at one decoder per failure class. -/
theorem sendRawTransaction_decode_policy_witness :
    _sendRawTransactionAction (fun _ => .error "invalid remainder") [1] =
      (.error (.invalidInput "Invalid transaction"), []) ∧
    _sendRawTransactionAction
      (fun _ => .error "this looks like an EIP155 tx") [1] =
      (.error (.invalidInput "this looks like an EIP155 tx"), []) ∧
    _sendRawTransactionAction (fun _ => .error "boom") [1] =
      (.error (.other "boom"), []) ∧
    (_sendRawTransactionAction (fun _ => .error "boom") [2]).2 = [] :=
  ⟨sendRawTransaction_decode_policy.1
     (fun _ => .error "invalid remainder") [1] rfl,
   sendRawTransaction_decode_policy.2.1
     (fun _ => .error "this looks like an EIP155 tx") [1]
     "this looks like an EIP155 tx" rfl (by decide),
   sendRawTransaction_decode_policy.2.2.1 (fun _ => .error "boom") [1]
     "boom" rfl (by decide) (by decide),
   sendRawTransaction_decode_policy.2.2.2 (fun _ => .error "boom") [2]
     "boom" rfl⟩

/-- C5: Subscribing to `logs` without criteria fails with
InvalidArguments `missing params argument`; an empty or one-element
argument list, or a non-callable last argument, fails with InvalidInput;
and a well-formed `subscribe("newHeads", callback)` succeeds with the
Quantity encoding of the node's new filter id, which `eth_unsubscribe`
decodes back and accepts. -/
theorem subscribe_policy :
    (∀ node, processEthSubscribe node [.str "logs", .callback] =
      .error (.invalidArguments "missing params argument")) ∧
    (_subscribeParams [] =
      .error (.invalidInput "Notifications not supported")) ∧
    (∀ v, _subscribeParams [v] =
      .error (.invalidInput "Expected subscription name as first argument")) ∧
    (∀ ps c, ps ≠ [] → isFunctionValue c = false →
      _subscribeParams (ps ++ [c]) =
        .error (.invalidInput "Notifications not supported")) ∧
    (∀ node, processEthSubscribe node [.str "newHeads", .callback] =
      .ok (numberToRpcQuantity node.newBlockFilter)) ∧
    (∀ node : BuidlerNode,
      _unsubscribeParams [.str (numberToRpcQuantity node.newBlockFilter)] =
        .ok node.newBlockFilter ∧
      _unsubscribeAction node node.newBlockFilter =
        .ok (node.uninstallFilter node.newBlockFilter true)) := by
  refine ⟨fun node => rfl, rfl, fun v => rfl, ?_, fun node => rfl,
    fun node => ⟨decodeQuantity_numberToRpcQuantity node.newBlockFilter,
      rfl⟩⟩
  intro ps c hps hc
  have hne : ps.length ≠ 0 := fun h => hps (List.length_eq_zero.mp h)
  have h0 : ¬((ps ++ [c]).length = 0) := by simp
  have h1 : ¬((ps ++ [c]).length = 1) := by
    rw [List.length_append, List.length_singleton]
    omega
  unfold _subscribeParams
  rw [if_neg h0, if_neg h1]
  simp only [List.getLast?_concat]
  rw [if_pos hc]

/-- Closed instances of C5: a non-callable trailing argument is rejected;
a well-formed newHeads subscription against the sample node yields id 2,
encoded and accepted back by unsubscribe. -/
theorem subscribe_policy_witness :
    _subscribeParams [RpcValue.str "newHeads", RpcValue.str "0x1"] =
      .error (.invalidInput "Notifications not supported") ∧
    processEthSubscribe sampleNode [RpcValue.str "newHeads",
      RpcValue.callback] = .ok (numberToRpcQuantity 2) ∧
    _unsubscribeParams [RpcValue.str (numberToRpcQuantity 2)] = .ok 2 :=
  ⟨subscribe_policy.2.2.2.1 [RpcValue.str "newHeads"] (RpcValue.str "0x1")
     (by decide) rfl,
   subscribe_policy.2.2.2.2.1 sampleNode,
   (subscribe_policy.2.2.2.2.2 sampleNode).1⟩

/-- C9 counterexample: `eth_newBlockFilter` accepts an extra positional
argument instead of failing: its params function ignores the argument
list. -/
theorem newBlockFilter_extra_argument_accepted :
    _newBlockFilterParams [RpcValue.str "0x1"] = .ok () := rfl

/-- C9 (amended): arguments validated through the shared validator fail
when extra arguments exceed the schema length or when a required argument
is missing; but `eth_newBlockFilter`, `eth_newPendingTransactionFilter`
and `eth_pendingTransactions` bypass the validator and accept any
argument list. -/
theorem paramValidation_amended :
    (∀ schemas (params : List RpcValue), schemas.length < params.length →
      ∃ e, validateParamsModel schemas params = .error e) ∧
    (∀ schemas (params : List RpcValue) i (hi : i < schemas.length),
      params.length ≤ i → (schemas.get ⟨i, hi⟩).optional = false →
      ∃ e, validateParamsModel schemas params = .error e) ∧
    (∀ params, _newBlockFilterParams params = .ok ()) ∧
    (∀ params, _newPendingTransactionParams params = .ok ()) ∧
    (∀ params, _pendingTransactionsParams params = .ok ()) := by
  refine ⟨?_, ?_, fun _ => rfl, fun _ => rfl, fun _ => rfl⟩
  · intro schemas
    induction schemas with
    | nil =>
      intro params h
      cases params with
      | nil => simp at h
      | cons p ps => exact ⟨_, rfl⟩
    | cons s ss ih =>
      intro params h
      cases params with
      | nil => simp at h
      | cons p ps =>
        unfold validateParamsModel
        by_cases hc : s.check p = true
        · rw [if_pos hc]
          obtain ⟨e, he⟩ := ih ps (Nat.lt_of_succ_lt_succ h)
          rw [he]
          exact ⟨e, rfl⟩
        · rw [if_neg hc]
          exact ⟨_, rfl⟩
  · intro schemas
    induction schemas with
    | nil =>
      intro params i hi
      exact absurd hi (by simp)
    | cons s ss ih =>
      intro params i hi hle hreq
      cases params with
      | nil =>
        cases i with
        | zero =>
          have hreq0 : s.optional = false := hreq
          unfold validateParamsModel
          rw [if_neg (by simp [hreq0])]
          exact ⟨_, rfl⟩
        | succ j =>
          unfold validateParamsModel
          by_cases hopt : s.optional = true
          · rw [if_pos hopt]
            exact ih [] j (Nat.lt_of_succ_lt_succ hi) (Nat.zero_le j) hreq
          · rw [if_neg hopt]
            exact ⟨_, rfl⟩
      | cons p ps =>
        cases i with
        | zero => exact absurd hle (by simp)
        | succ j =>
          unfold validateParamsModel
          by_cases hc : s.check p = true
          · rw [if_pos hc]
            obtain ⟨e, he⟩ := ih ps j (Nat.lt_of_succ_lt_succ hi)
              (Nat.le_of_succ_le_succ hle) hreq
            rw [he]
            exact ⟨e, rfl⟩
          · rw [if_neg hc]
            exact ⟨_, rfl⟩

/-- Closed instances of the amended C9: too many and too few arguments
against the validator fail; the bypassing params function accepts an
argument. -/
theorem paramValidation_amended_witness :
    (∃ e, validateParamsModel [] [RpcValue.other] = .error e) ∧
    (∃ e, validateParamsModel [⟨fun _ => true, false⟩] [] = .error e) ∧
    _newPendingTransactionParams [RpcValue.other] = .ok () ∧
    _pendingTransactionsParams [RpcValue.other] = .ok () :=
  ⟨paramValidation_amended.1 [] [RpcValue.other] (by decide),
   paramValidation_amended.2.1 [⟨fun _ => true, false⟩] [] 0 (by decide)
     (by decide) rfl,
   paramValidation_amended.2.2.2.1 [RpcValue.other],
   paramValidation_amended.2.2.2.2 [RpcValue.other]⟩

end BuidlerEvm
